import Mathlib

/-
  Shallow embedding of the yamux connection engine (src/src/connection.rs).

  The single source file of the repository is connection.rs; the sibling
  modules it uses (frame, stream, error) are not part of the repository
  snapshot, so their small surface (frame constructors, stream id parity
  predicates, error enums) is modelled from the spec where noted.

  Machine integers: stream ids and the id counter are u32 in the source;
  they are modelled as Nat with the explicit bound checks the source
  performs (the source itself guards against overflow before adding).
  Byte bodies are lists of bytes; channels are modelled as explicit lists
  held in the stream handle, with an `alive` flag standing for "the
  receiver half has not been dropped".
-/

/-- Decidable equality for `Except`, so that concrete runs of the fallible
operations can be checked by `decide`. -/
instance {ε α : Type} [DecidableEq ε] [DecidableEq α] : DecidableEq (Except ε α) := fun x y =>
  match x, y with
  | .ok a, .ok b =>
    if h : a = b then isTrue (by rw [h]) else isFalse (by intro hh; cases hh; exact h rfl)
  | .error a, .error b =>
    if h : a = b then isTrue (by rw [h]) else isFalse (by intro hh; cases hh; exact h rfl)
  | .ok _, .error _ => isFalse (by intro hh; cases hh)
  | .error _, .ok _ => isFalse (by intro hh; cases hh)

namespace Yamux

/-- A frame body: a byte string (`frame::Body`). -/
abbrev Body := List Nat

/-- The largest u32 value, `u32::MAX`. -/
def U32_MAX : Nat := 2 ^ 32 - 1

/-- Modelled from the spec: `ECODE_PROTO` is the (only) GoAway error code the
core emits; its numeric value lives in the missing frame/header module, so it
is fixed here as an arbitrary concrete constant. -/
def ECODE_PROTO : Nat := 1

/-- Connection mode (`Mode` in connection.rs). -/
inductive Mode
  | Client
  | Server
deriving DecidableEq

/-- Configuration surface used by the core (`Config`). -/
structure Config where
  receive_window : Nat
deriving DecidableEq

/-- Modelled from the spec: stream id 0 is the session id (stream.rs is not in
the snapshot; spec section 3). -/
def Id.is_session (id : Nat) : Bool := id == 0

/-- Modelled from the spec: client-initiated stream ids are odd (spec
section 3; stream.rs is not in the snapshot). -/
def Id.is_client (id : Nat) : Bool := id % 2 == 1

/-- Modelled from the spec: server-initiated stream ids are even (spec
section 3; stream.rs is not in the snapshot). -/
def Id.is_server (id : Nat) : Bool := id % 2 == 0

/-- Frame types (`frame::header::Type`). -/
inductive FrameType
  | Data
  | WindowUpdate
  | Ping
  | GoAway
deriving DecidableEq

/-- Header flag bits SYN, ACK, FIN, RST, modelled as four booleans. -/
structure Flags where
  syn : Bool
  ack : Bool
  fin : Bool
  rst : Bool
deriving DecidableEq

/-- The empty flag set (a freshly constructed header carries no flags). -/
def no_flags : Flags := ⟨false, false, false, false⟩

/-- An untyped frame (`frame::RawFrame`): type, flags, stream id, the
context-dependent 32-bit field (length / credit / nonce / code) and body. -/
structure RawFrame where
  ty : FrameType
  flags : Flags
  id : Nat
  aux : Nat
  body : Body
deriving DecidableEq

/-- Modelled from the spec: `Frame::data(id, body)` builds a Data frame with
no flags and length field equal to the body length. -/
def Frame.data (id : Nat) (body : Body) : RawFrame :=
  { ty := .Data, flags := no_flags, id := id, aux := body.length, body := body }

/-- Modelled from the spec: `Frame::window_update(id, credit)` builds a
WindowUpdate frame with no flags carrying the credit. -/
def Frame.window_update (id : Nat) (credit : Nat) : RawFrame :=
  { ty := .WindowUpdate, flags := no_flags, id := id, aux := credit, body := [] }

/-- Modelled from the spec: `Header::ping(nonce)` builds a Ping frame on the
session id 0 carrying the nonce. -/
def Frame.ping (nonce : Nat) : RawFrame :=
  { ty := .Ping, flags := no_flags, id := 0, aux := nonce, body := [] }

/-- Modelled from the spec: `Frame::go_away(code)` builds a GoAway frame on
the session id 0 carrying the error code. -/
def Frame.go_away (code : Nat) : RawFrame :=
  { ty := .GoAway, flags := no_flags, id := 0, aux := code, body := [] }

/-- Flag setter `header.syn()`. -/
def set_syn (f : RawFrame) : RawFrame := { f with flags := { f.flags with syn := true } }

/-- Flag setter `header.ack()`. -/
def set_ack (f : RawFrame) : RawFrame := { f with flags := { f.flags with ack := true } }

/-- Flag setter `header.fin()`. -/
def set_fin (f : RawFrame) : RawFrame := { f with flags := { f.flags with fin := true } }

/-- Flag setter `header.rst()`. -/
def set_rst (f : RawFrame) : RawFrame := { f with flags := { f.flags with rst := true } }

/-- Items a Stream pushes to the connection mailbox (`stream::Item`). -/
inductive Item
  | Data (body : Body)
  | WindowUpdate (n : Nat)
  | Reset
  | Finish
deriving DecidableEq

/-- Result of the delivery primitive (`Delivery` in connection.rs). -/
inductive Delivery
  | Despatched
  | StreamNotFound
  | ReceiverFull
deriving DecidableEq

/-- Modelled from the spec: connection error kinds used by the core
(error.rs is not in the snapshot). -/
inductive ConnectionError
  | NoMoreStreamIds
  | TransportError
deriving DecidableEq

/-- Control-surface errors (`CtrlError`), modelled from the spec. -/
inductive CtrlError
  | InitialBodyTooLarge (limit : Nat)
  | ConnectionClosed
deriving DecidableEq

/-- Server-side per-stream state (`StreamHandle`): the shared receive-window
value the engine reads, the inbox channel (its queued items, plus an `alive`
flag meaning the Stream-side receiver has not been dropped) and the
pending-ACK flag. -/
structure StreamHandle where
  recv_win : Nat
  alive : Bool
  inbox : List Item
  ack : Bool
deriving DecidableEq

/-- The stream table (`BTreeMap<stream::Id, StreamHandle>`), as an
association list keyed by stream id. -/
abbrev Table := List (Nat × StreamHandle)

/-- Table lookup (`BTreeMap::get`). -/
def tbl_get : Table → Nat → Option StreamHandle
  | [], _ => none
  | (k, h) :: rest, id => if k == id then some h else tbl_get rest id

/-- Table removal (`BTreeMap::remove`). -/
def tbl_remove (t : Table) (id : Nat) : Table :=
  t.filter (fun e => !(e.1 == id))

/-- Table insertion (`BTreeMap::insert`), replacing any entry for the key. -/
def tbl_insert (t : Table) (id : Nat) (h : StreamHandle) : Table :=
  (id, h) :: tbl_remove t id

/-- Key membership (`BTreeMap::contains_key`). -/
def tbl_contains (t : Table) (id : Nat) : Bool :=
  (tbl_get t id).isSome

/-- The connection engine state (`Connection<T>`): liveness flag, mode,
configuration, local id counter, stream table and the pending outbound
frame slot. The transport, codec and channel endpoints are external. -/
structure Conn where
  is_dead : Bool
  mode : Mode
  config : Config
  id_counter : Nat
  streams : Table
  pending : Option RawFrame
deriving DecidableEq

/-- `Connection::new(resource, config, mode)`: fresh engine state; the id
counter starts at 1 for Client and 2 for Server. -/
def Connection.new (config : Config) (mode : Mode) : Conn :=
  { is_dead := false
    mode := mode
    config := config
    id_counter := match mode with | .Client => 1 | .Server => 2
    streams := []
    pending := none }

/-- `Connection::terminate`: mark dead and clear the stream table. -/
def terminate (st : Conn) : Conn :=
  { st with is_dead := true, streams := [] }

/-- `Connection::next_stream_id`: refuse when the counter exceeds
`u32::MAX - 2`, otherwise return the counter and advance it by 2. -/
def next_stream_id (st : Conn) : Except ConnectionError (Nat × Conn) :=
  if st.id_counter > U32_MAX - 2 then .error .NoMoreStreamIds
  else .ok (st.id_counter, { st with id_counter := st.id_counter + 2 })

/-- `Connection::is_valid_remote_id`: Ping and GoAway must use the session
id; Data and WindowUpdate must carry the parity opposite to our mode. -/
def is_valid_remote_id (mode : Mode) (id : Nat) (ty : FrameType) : Bool :=
  match ty with
  | .Ping => Id.is_session id
  | .GoAway => Id.is_session id
  | _ =>
    match mode with
    | .Client => Id.is_server id
    | .Server => Id.is_client id

/-- `Connection::new_stream`: insert a fresh handle (given pending-ACK flag,
given receive window, empty live inbox) into the table. -/
def new_stream (st : Conn) (id : Nat) (ack : Bool) (recv_window : Nat) : Conn :=
  let h : StreamHandle := { recv_win := recv_window, alive := true, inbox := [], ack := ack }
  { st with streams := tbl_insert st.streams id h }

/-- Whether a `Data` item is larger than the receive window the handle
currently advertises (the overflow probe inside `deliver`). -/
def too_big (item : Item) (win : Nat) : Bool :=
  match item with
  | .Data b => win < b.length
  | _ => false

/-- `Connection::deliver`: look the stream up; a too-large `Data` item is
`ReceiverFull`; a live inbox accepts the item (`Despatched`); otherwise the
entry is removed and the result is `StreamNotFound`. -/
def deliver (st : Conn) (id : Nat) (item : Item) : Delivery × Conn :=
  match tbl_get st.streams id with
  | some h =>
    if too_big item h.recv_win then (.ReceiverFull, st)
    else if h.alive then
      (.Despatched,
       { st with streams := tbl_insert st.streams id ({ h with inbox := h.inbox ++ [item] }) })
    else (.StreamNotFound, { st with streams := tbl_remove st.streams id })
  | none => (.StreamNotFound, { st with streams := tbl_remove st.streams id })

/-- `Connection::on_reset`: deliver `Reset` to the inbox, then drop the
handle from the table. -/
def on_reset (st : Conn) (id : Nat) : Conn :=
  let st1 := (deliver st id .Reset).2
  { st1 with streams := tbl_remove st1.streams id }

/-- `Connection::on_finish`: deliver `Finish` to the inbox. -/
def on_finish (st : Conn) (id : Nat) : Conn :=
  (deliver st id .Finish).2

/-- `Connection::on_stream_item`: translate an outbound item into a raw
frame; `Data` and `WindowUpdate` consume a pending ACK, `Reset` removes the
handle, `Finish` builds an empty FIN Data frame. -/
def on_stream_item (st : Conn) (id : Nat) (item : Item) : RawFrame × Conn :=
  match item with
  | .Data body =>
    let frame := Frame.data id body
    match tbl_get st.streams id with
    | some h =>
      if h.ack then
        (set_ack frame, { st with streams := tbl_insert st.streams id ({ h with ack := false }) })
      else (frame, st)
    | none => (frame, st)
  | .WindowUpdate n =>
    let frame := Frame.window_update id n
    match tbl_get st.streams id with
    | some h =>
      if h.ack then
        (set_ack frame, { st with streams := tbl_insert st.streams id ({ h with ack := false }) })
      else (frame, st)
    | none => (frame, st)
  | .Reset =>
    (set_rst (Frame.data id []), { st with streams := tbl_remove st.streams id })
  | .Finish =>
    (set_fin (Frame.data id []), st)

/-- `Connection::on_data`: dispatch an inbound Data frame. RST resets; SYN
validates id parity, body size and freshness, then creates the stream and
enqueues `Finish` (on FIN) and the initial body; otherwise the body is
delivered to the existing stream, with `ReceiverFull` a protocol error. -/
def on_data (st : Conn) (f : RawFrame) : Except Nat (Option Nat) × Conn :=
  let stream_id := f.id
  if f.flags.rst then (.ok none, on_reset st stream_id)
  else
    let is_finish := f.flags.fin
    let body := f.body
    if f.flags.syn then
      if !(is_valid_remote_id st.mode stream_id .Data) then (.error ECODE_PROTO, st)
      else
        let credit := st.config.receive_window
        if body.length > credit then (.error ECODE_PROTO, st)
        else if tbl_contains st.streams stream_id then (.error ECODE_PROTO, st)
        else
          let st1 := new_stream st stream_id true credit
          let st2 := if is_finish then (deliver st1 stream_id .Finish).2 else st1
          let st3 := if !body.isEmpty then (deliver st2 stream_id (.Data body)).2 else st2
          (.ok (some stream_id), st3)
    else
      match deliver st stream_id (.Data body) with
      | (.Despatched, st1) =>
        (.ok none, if is_finish then on_finish st1 stream_id else st1)
      | (.StreamNotFound, st1) => (.ok none, st1)
      | (.ReceiverFull, st1) => (.error ECODE_PROTO, st1)

/-- `Connection::on_window_update`: dispatch an inbound WindowUpdate frame. -/
def on_window_update (st : Conn) (f : RawFrame) : Except Nat (Option Nat) × Conn :=
  let stream_id := f.id
  if f.flags.rst then (.ok none, on_reset st stream_id)
  else
    let credit := f.aux
    let is_finish := f.flags.fin
    if f.flags.syn then
      if !(is_valid_remote_id st.mode stream_id .WindowUpdate) then (.error ECODE_PROTO, st)
      else if tbl_contains st.streams stream_id then (.error ECODE_PROTO, st)
      else
        let st1 := new_stream st stream_id true credit
        let st2 := if is_finish then (deliver st1 stream_id .Finish).2 else st1
        (.ok (some stream_id), st2)
    else
      let d := deliver st stream_id (.WindowUpdate credit)
      if d.1 = .StreamNotFound then (.ok none, d.2)
      else (.ok none, if is_finish then on_finish d.2 stream_id else d.2)

/-- `Connection::on_ping`: a pong (ACK set) is dropped; a ping whose id is a
known stream is answered with an ACK ping carrying the same nonce; any other
ping is logged and dropped. -/
def on_ping (st : Conn) (f : RawFrame) : Option RawFrame :=
  if f.flags.ack then none
  else if tbl_contains st.streams f.id then some (set_ack (Frame.ping f.aux))
  else none

/-- `Connection::open_stream` (engine side): allocate the next local id,
create a handle with no pending ACK and the configured window, and build the
SYN Data frame carrying the optional initial body. -/
def conn_open_stream (st : Conn) (data : Option Body) :
    Except ConnectionError (Conn × RawFrame) :=
  match next_stream_id st with
  | .error e => .error e
  | .ok (id, st1) =>
    let credit := st1.config.receive_window
    let st2 := new_stream st1 id false credit
    .ok (st2, set_syn (Frame.data id (data.getD [])))

/-- Whether the optional initial body exceeds the receive window (the check
at the top of `Ctrl::open_stream`). -/
def initial_too_large (receive_window : Nat) (data : Option Body) : Bool :=
  match data with
  | some d => receive_window < d.length
  | none => false

/-- `Ctrl::open_stream` (caller side): reject an oversized initial body
immediately; a broken command channel or a dropped reply slot yields
`ConnectionClosed`; otherwise the command (with its body) is enqueued. -/
def ctrl_open_stream (receive_window : Nat) (data : Option Body)
    (sender_ok : Bool) (reply_ok : Bool) : Except CtrlError (Option Body) :=
  if initial_too_large receive_window data then
    .error (.InitialBodyTooLarge receive_window)
  else if sender_ok = false then .error .ConnectionClosed
  else if reply_ok = false then .error .ConnectionClosed
  else .ok data

/-- Result of one drive of `Connection::poll`. -/
inductive PollResult
  | ready (sid : Nat)
  | notReady
  | eos
  | connError (e : ConnectionError)
deriving DecidableEq

/-- The command-draining loop of `poll`: each `OpenStream` command runs
`open_stream` and transmits the SYN frame; an allocation error terminates
the connection and surfaces the error. -/
def processCmds (st : Conn) (cmds : List (Option Body)) (sent : List RawFrame) :
    Except (ConnectionError × Conn × List RawFrame) (Conn × List RawFrame) :=
  match cmds with
  | [] => .ok (st, sent)
  | body :: rest =>
    match conn_open_stream st body with
    | .ok (st1, f) => processCmds st1 rest (sent ++ [f])
    | .error e => .error (e, terminate st, sent)

/-- The stream-item loop of `poll`: translate each mailbox item and
transmit the resulting frame. -/
def processItems (st : Conn) (items : List (Nat × Item)) (sent : List RawFrame) :
    Conn × List RawFrame :=
  match items with
  | [] => (st, sent)
  | (id, it) :: rest =>
    let p := on_stream_item st id it
    processItems p.2 rest (sent ++ [p.1])

/-- The inbound loop of `poll`: dispatch frames by type; a surfaced stream
returns `ready`, a protocol error transmits GoAway and continues, a GoAway
terminates and returns end-of-stream, exhaustion of the transport input is
`notReady`. -/
def processInbound (st : Conn) (inbound : List RawFrame) (sent : List RawFrame) :
    PollResult × Conn × List RawFrame :=
  match inbound with
  | [] => (.notReady, st, sent)
  | f :: rest =>
    match f.ty with
    | .Data =>
      match on_data st f with
      | (.ok none, st1) => processInbound st1 rest sent
      | (.ok (some sid), st1) => (.ready sid, st1, sent)
      | (.error code, st1) => processInbound st1 rest (sent ++ [Frame.go_away code])
    | .WindowUpdate =>
      match on_window_update st f with
      | (.ok none, st1) => processInbound st1 rest sent
      | (.ok (some sid), st1) => (.ready sid, st1, sent)
      | (.error code, st1) => processInbound st1 rest (sent ++ [Frame.go_away code])
    | .Ping =>
      match on_ping st f with
      | none => processInbound st rest sent
      | some pong => processInbound st rest (sent ++ [pong])
    | .GoAway => (.eos, terminate st, sent)

/-- One drive of `Connection::poll` with the sink always ready: a dead
connection yields end-of-stream at once; otherwise the pending frame is
flushed first, then queued commands, then stream items, then inbound
frames. Returns the poll outcome, the final state and the frames sent. -/
def poll (st : Conn) (cmds : List (Option Body)) (items : List (Nat × Item))
    (inbound : List RawFrame) : PollResult × Conn × List RawFrame :=
  if st.is_dead then (.eos, st, [])
  else
    let flushed : Conn × List RawFrame :=
      match st.pending with
      | some f => ({ st with pending := none }, [f])
      | none => (st, [])
    match processCmds flushed.1 cmds flushed.2 with
    | .error (e, st2, sent) => (.connError e, st2, sent)
    | .ok (st2, sent) =>
      let p := processItems st2 items sent
      processInbound p.1 inbound p.2

/-- Translating the items of one stream in sequence (the stream-item loop
restricted to a single stream), collecting the emitted frames. -/
def run_items (st : Conn) (id : Nat) (items : List Item) : List RawFrame × Conn :=
  match items with
  | [] => ([], st)
  | it :: rest =>
    let p := on_stream_item st id it
    let q := run_items p.2 id rest
    (p.1 :: q.1, q.2)

/-- Sink readiness reported by `start_send` / the transport. -/
inductive SinkStatus
  | ready
  | notReady
  | ioError
deriving DecidableEq

/-- Outcome of one `Connection::send` call. -/
inductive SendRes
  | ready
  | notReady
  | fatal
deriving DecidableEq

/-- `Connection::send`: a ready sink accepts the frame; a full sink parks it
in `pending` after asserting the slot is empty (`none` models that assert
firing); an I/O error terminates. -/
def send (st : Conn) (f : RawFrame) (s : SinkStatus) : Option (SendRes × Conn) :=
  match s with
  | .ready => some (.ready, st)
  | .notReady =>
    if st.pending.isSome then none
    else some (.notReady, { st with pending := some f })
  | .ioError => some (.fatal, terminate st)

/-- The sequence of fresh-frame sends a drive performs: each send consumes
one sink status from the oracle; `try_ready` semantics stop the drive on a
parked frame or a fatal error. -/
def sendAll (st : Conn) (frames : List RawFrame) (oracle : List SinkStatus) :
    Option Conn :=
  match frames with
  | [] => some st
  | f :: rest =>
    match send st f (oracle.headD .ready) with
    | none => none
    | some (.ready, st1) => sendAll st1 rest oracle.tail
    | some (.notReady, st1) => some st1
    | some (.fatal, st1) => some st1

/-- The send discipline of one drive of `poll`: a dead connection sends
nothing; otherwise the pending frame is taken out of its slot and re-sent
before any fresh frame is attempted. -/
def pollSends (st : Conn) (frames : List RawFrame) (oracle : List SinkStatus) :
    Option Conn :=
  if st.is_dead then some st
  else
    match st.pending with
    | some f =>
      match send { st with pending := none } f (oracle.headD .ready) with
      | none => none
      | some (.ready, st1) => sendAll st1 frames oracle.tail
      | some (.notReady, st1) => some st1
      | some (.fatal, st1) => some st1
    | none => sendAll st frames oracle

/-! Helper lemmas about the stream table. -/

theorem tbl_get_insert (t : Table) (id : Nat) (h : StreamHandle) :
    tbl_get (tbl_insert t id h) id = some h := by
  simp [tbl_insert, tbl_get]

theorem tbl_get_remove (t : Table) (id : Nat) :
    tbl_get (tbl_remove t id) id = none := by
  induction t with
  | nil => rfl
  | cons e rest ih =>
    rcases e with ⟨k, v⟩
    by_cases hk : k = id
    · simpa [tbl_remove, List.filter_cons, hk] using ih
    · simpa [tbl_remove, List.filter_cons, hk, tbl_get] using ih

theorem tbl_remove_remove (t : Table) (id : Nat) :
    tbl_remove (tbl_remove t id) id = tbl_remove t id := by
  induction t with
  | nil => rfl
  | cons e rest ih =>
    rcases e with ⟨k, v⟩
    by_cases hk : k = id
    · simp only [tbl_remove, List.filter_cons, hk] at ih ⊢
      simp [ih]
    · simp only [tbl_remove, List.filter_cons, hk] at ih ⊢
      simp [hk, ih]

theorem tbl_insert_insert (t : Table) (id : Nat) (h h' : StreamHandle) :
    tbl_insert (tbl_insert t id h) id h' = tbl_insert t id h' := by
  simp [tbl_insert, tbl_remove, List.filter_cons, tbl_remove_remove]

theorem tbl_get_none_remove (t : Table) (id : Nat) (hg : tbl_get t id = none) :
    tbl_remove t id = t := by
  induction t with
  | nil => rfl
  | cons e rest ih =>
    rcases e with ⟨k, v⟩
    by_cases hk : k = id
    · simp [tbl_get, hk] at hg
    · simp only [tbl_get, hk, if_false, beq_iff_eq, if_neg] at hg
      have hg2 : tbl_get rest id = none := by
        simpa [tbl_get, hk] using hg
      simp [tbl_remove, List.filter_cons, hk] at ih ⊢
      exact ih hg2

/-- Delivering a deliverable item to a freshly inserted (or updated) handle
appends it to that inbox. -/
theorem deliver_insert (st : Conn) (id : Nat) (h : StreamHandle) (item : Item)
    (halive : h.alive = true) (hbig : too_big item h.recv_win = false) :
    deliver { st with streams := tbl_insert st.streams id h } id item =
      (.Despatched,
       { st with streams := tbl_insert st.streams id ({ h with inbox := h.inbox ++ [item] }) }) := by
  simp [deliver, tbl_get_insert, hbig, halive, tbl_insert_insert]

/-! Concrete states used by the witnesses. -/

/-- A live handle with a small window and no pending ACK. -/
def dw_h1 : StreamHandle := ⟨2, true, [], false⟩

/-- A handle whose Stream-side receiver has been dropped. -/
def dw_h3 : StreamHandle := ⟨5, false, [], true⟩

/-- A server connection with two streams in its table. -/
def dw_st : Conn := { Connection.new ⟨256⟩ .Server with streams := [(1, dw_h1), (3, dw_h3)] }

/-- Claim C3: the delivery primitive returns StreamNotFound when the table
has no entry for the id; ReceiverFull when the entry exists and a Data item
is strictly larger than the current receive window; otherwise it appends
the item to the inbox of the entry and returns Despatched, except that a
dropped receiver removes the entry and returns StreamNotFound. -/
theorem deliver_spec (st : Conn) (id : Nat) (item : Item) :
    (tbl_get st.streams id = none → deliver st id item = (.StreamNotFound, st)) ∧
    (∀ h b, tbl_get st.streams id = some h → item = .Data b → h.recv_win < b.length →
      deliver st id item = (.ReceiverFull, st)) ∧
    (∀ h, tbl_get st.streams id = some h → too_big item h.recv_win = false → h.alive = true →
      deliver st id item = (.Despatched, { st with streams := tbl_insert st.streams id ({ h with inbox := h.inbox ++ [item] }) })) ∧
    (∀ h, tbl_get st.streams id = some h → too_big item h.recv_win = false → h.alive = false →
      deliver st id item = (.StreamNotFound, { st with streams := tbl_remove st.streams id })) := by
  refine ⟨?_, ?_, ?_, ?_⟩
  · intro hg
    have hrm := tbl_get_none_remove st.streams id hg
    simp [deliver, hg, hrm]
  · intro h b hg hib hlen
    subst hib
    simp [deliver, hg, too_big, hlen]
  · intro h hg hbig halive
    simp [deliver, hg, hbig, halive]
  · intro h hg hbig halive
    simp [deliver, hg, hbig, halive]

/-- Witness for deliver_spec: all four delivery outcomes at concrete
states. -/
theorem deliver_spec_witness :
    deliver dw_st 5 .Finish = (.StreamNotFound, dw_st) ∧
    deliver dw_st 1 (.Data [0, 1, 2]) = (.ReceiverFull, dw_st) ∧
    deliver dw_st 1 (.Data [0, 1]) = (.Despatched, { dw_st with streams := tbl_insert dw_st.streams 1 ({ dw_h1 with inbox := dw_h1.inbox ++ [.Data [0, 1]] }) }) ∧
    deliver dw_st 3 .Finish = (.StreamNotFound, { dw_st with streams := tbl_remove dw_st.streams 3 }) := by
  refine ⟨(deliver_spec dw_st 5 .Finish).1 (by decide),
          (deliver_spec dw_st 1 (.Data [0, 1, 2])).2.1 dw_h1 [0, 1, 2] (by decide) rfl (by decide),
          (deliver_spec dw_st 1 (.Data [0, 1])).2.2.1 dw_h1 (by decide) (by decide) (by decide),
          (deliver_spec dw_st 3 .Finish).2.2.2 dw_h3 (by decide) (by decide) (by decide)⟩

/-- Claim C5: the id counter starts at 1 in Client mode and 2 in Server
mode; a successful allocation returns the current counter (which on
reachable counters has the mode parity) and advances it by exactly 2;
allocation fails with NoMoreStreamIds exactly when the counter exceeds
2^32 - 3. -/
theorem next_stream_id_spec (cfg : Config) (mode : Mode) (k : Nat) (st : Conn) :
    (Connection.new cfg .Client).id_counter = 1 ∧
    (Connection.new cfg .Server).id_counter = 2 ∧
    (st.id_counter ≤ 2 ^ 32 - 3 →
      next_stream_id st = .ok (st.id_counter, { st with id_counter := st.id_counter + 2 })) ∧
    (st.id_counter > 2 ^ 32 - 3 → next_stream_id st = .error .NoMoreStreamIds) ∧
    (st.id_counter = (Connection.new cfg mode).id_counter + 2 * k →
      (mode = .Client → Id.is_client st.id_counter = true) ∧
      (mode = .Server → Id.is_server st.id_counter = true)) := by
  have hmax : U32_MAX - 2 = 2 ^ 32 - 3 := by norm_num [U32_MAX]
  refine ⟨rfl, rfl, ?_, ?_, ?_⟩
  · intro hle
    rw [next_stream_id, hmax, if_neg (by omega)]
  · intro hgt
    rw [next_stream_id, hmax, if_pos (by omega)]
  · intro hc
    constructor
    · intro hm
      subst hm
      have hinit : (Connection.new cfg Mode.Client).id_counter = 1 := rfl
      rw [hinit] at hc
      simp only [Id.is_client, beq_iff_eq]
      omega
    · intro hm
      subst hm
      have hinit : (Connection.new cfg Mode.Server).id_counter = 2 := rfl
      rw [hinit] at hc
      simp only [Id.is_server, beq_iff_eq]
      omega

/-- Witness for next_stream_id_spec: the first client allocation returns id
1 (odd) and advances the counter to 3. -/
theorem next_stream_id_spec_witness :
    next_stream_id (Connection.new ⟨256⟩ .Client) =
      .ok (1, { Connection.new ⟨256⟩ .Client with id_counter := 3 }) ∧
    Id.is_client (Connection.new ⟨256⟩ .Client).id_counter = true := by
  have h := next_stream_id_spec ⟨256⟩ .Client 0 (Connection.new ⟨256⟩ .Client)
  exact ⟨h.2.2.1 (by decide), (h.2.2.2.2 (by decide)).1 rfl⟩

/-- Claim C7: an oversized initial body makes open_stream fail immediately
with InitialBodyTooLarge carrying the configured limit and enqueues no
command; with a body within the window, a broken channel on either side
fails with ConnectionClosed; only a successful call enqueues the command. -/
theorem open_stream_errors (w : Nat) (data : Option Body) (s r : Bool) :
    (∀ d, data = some d → w < d.length →
      ctrl_open_stream w data s r = .error (.InitialBodyTooLarge w)) ∧
    (initial_too_large w data = false → (s = false ∨ r = false) →
      ctrl_open_stream w data s r = .error .ConnectionClosed) ∧
    (∀ res, ctrl_open_stream w data s r = .ok res →
      res = data ∧ s = true ∧ r = true) := by
  refine ⟨?_, ?_, ?_⟩
  · intro d hd hlen
    subst hd
    simp [ctrl_open_stream, initial_too_large, hlen]
  · intro hfit hbroken
    cases s
    · simp [ctrl_open_stream, hfit]
    · cases r
      · simp [ctrl_open_stream, hfit]
      · rcases hbroken with hb | hb <;> simp at hb
  · intro res hok
    cases s <;> cases r <;> cases hfit : initial_too_large w data <;>
      simp_all [ctrl_open_stream]

/-- Witness for open_stream_errors: a 5-byte body over a window of 4 is
rejected with the limit; a fitting body on a broken channel fails with
ConnectionClosed. -/
theorem open_stream_errors_witness :
    ctrl_open_stream 4 (some [1, 2, 3, 4, 5]) true true = .error (.InitialBodyTooLarge 4) ∧
    ctrl_open_stream 4 (some [1, 2]) false true = .error .ConnectionClosed := by
  exact ⟨(open_stream_errors 4 (some [1, 2, 3, 4, 5]) true true).1 [1, 2, 3, 4, 5] rfl (by norm_num),
         (open_stream_errors 4 (some [1, 2]) false true).2.1 (by decide) (Or.inl rfl)⟩

/-- Claim C10: both receive-window comparisons are strict: an initial body
of exactly the window size never produces InitialBodyTooLarge, and an
inbound SYN Data frame whose body length equals the window is accepted as a
new stream. -/
theorem window_checks_strict (w : Nat) (d : Body) (s r : Bool) (st : Conn) (f : RawFrame) :
    (d.length = w → ∀ m, ctrl_open_stream w (some d) s r ≠ .error (.InitialBodyTooLarge m)) ∧
    (f.flags.syn = true → f.flags.rst = false →
      f.body.length = st.config.receive_window →
      is_valid_remote_id st.mode f.id .Data = true →
      tbl_contains st.streams f.id = false →
      (on_data st f).1 = .ok (some f.id)) := by
  constructor
  · intro hlen m
    have hfit : initial_too_large w (some d) = false := by
      simp [initial_too_large, hlen]
    cases s <;> cases r <;> simp [ctrl_open_stream, hfit]
  · intro hsyn hrst hlen hval hfresh
    have hnotgt : ¬ (f.body.length > st.config.receive_window) := by omega
    simp [on_data, hrst, hsyn, hval, hnotgt, hfresh]

/-- Witness for window_checks_strict: window 2, body of exactly 2 bytes. -/
theorem window_checks_strict_witness :
    (∀ m, ctrl_open_stream 2 (some [7, 8]) true true ≠ .error (.InitialBodyTooLarge m)) ∧
    (on_data (Connection.new ⟨2⟩ .Server) (set_syn (Frame.data 1 [7, 8]))).1 = .ok (some 1) := by
  have h := window_checks_strict 2 [7, 8] true true (Connection.new ⟨2⟩ .Server)
    (set_syn (Frame.data 1 [7, 8]))
  exact ⟨h.1 rfl, h.2 rfl rfl rfl rfl rfl⟩

/-- Claim C1 counterexample: a fresh Server connection receiving a SYN Data
frame with id 2 (local parity, hence invalid remote) replies with
GoAway(ECODE_PROTO) but is NOT terminated: is_dead stays false, refuting
the termination part of the claim. -/
theorem bad_syn_not_terminated :
    is_valid_remote_id (Connection.new ⟨256⟩ .Server).mode 2 .Data = false ∧
    (poll (Connection.new ⟨256⟩ .Server) [] [] [set_syn (Frame.data 2 [])]).2.2 =
      [Frame.go_away ECODE_PROTO] ∧
    (poll (Connection.new ⟨256⟩ .Server) [] [] [set_syn (Frame.data 2 [])]).2.1.is_dead = false := by
  decide

/-- Claim C1 (amended): an inbound SYN Data frame (without RST) violating
remote parity, the window bound or freshness makes the engine reply with
GoAway(ECODE_PROTO) and surface no new Stream; the connection state is left
untouched, in particular is_dead remains false. -/
theorem bad_syn_go_away (st : Conn) (f : RawFrame)
    (hdead : st.is_dead = false) (hpend : st.pending = none)
    (hty : f.ty = .Data) (hsyn : f.flags.syn = true) (hrst : f.flags.rst = false)
    (hviol : is_valid_remote_id st.mode f.id .Data = false ∨
             st.config.receive_window < f.body.length ∨
             tbl_contains st.streams f.id = true) :
    poll st [] [] [f] = (.notReady, st, [Frame.go_away ECODE_PROTO]) := by
  have hod : on_data st f = (.error ECODE_PROTO, st) := by
    cases hval : is_valid_remote_id st.mode f.id .Data
    · simp [on_data, hrst, hsyn, hval]
    · by_cases hlen : f.body.length > st.config.receive_window
      · simp [on_data, hrst, hsyn, hval, hlen]
      · have hc : tbl_contains st.streams f.id = true := by
          rcases hviol with hv | hv | hv
          · rw [hval] at hv; simp at hv
          · exact absurd hv (by omega)
          · exact hv
        simp [on_data, hrst, hsyn, hval, hlen, hc]
  simp [poll, hdead, hpend, processCmds, processItems, processInbound, hty, hod]

/-- Witness for bad_syn_go_away: Client connection, SYN Data with odd
(client-parity, hence invalid remote) id 3. -/
theorem bad_syn_go_away_witness :
    poll (Connection.new ⟨256⟩ .Client) [] [] [set_syn (Frame.data 3 [])] =
      (.notReady, Connection.new ⟨256⟩ .Client, [Frame.go_away ECODE_PROTO]) :=
  bad_syn_go_away (Connection.new ⟨256⟩ .Client) (set_syn (Frame.data 3 []))
    rfl rfl rfl rfl rfl (Or.inl rfl)

/-- Claim C9: terminate sets is_dead and empties the stream table; a dead
connection polls to end-of-stream immediately, emitting no frame and
touching no input; an inbound GoAway terminates and the same poll returns
end-of-stream. -/
theorem terminate_spec (st : Conn) (cmds : List (Option Body))
    (items : List (Nat × Item)) (inbound : List RawFrame) (f : RawFrame)
    (rest : List RawFrame) :
    ((terminate st).is_dead = true ∧ (terminate st).streams = []) ∧
    (st.is_dead = true → poll st cmds items inbound = (.eos, st, [])) ∧
    (st.is_dead = false → st.pending = none → f.ty = .GoAway →
      poll st [] [] (f :: rest) = (.eos, terminate st, [])) := by
  refine ⟨⟨rfl, rfl⟩, ?_, ?_⟩
  · intro hdead
    simp [poll, hdead]
  · intro hdead hpend hty
    simp [poll, hdead, hpend, processCmds, processItems, processInbound, hty]

/-- Witness for terminate_spec: a terminated connection ignores queued
commands, items and frames; a live one dies on GoAway. -/
theorem terminate_spec_witness :
    poll (terminate (Connection.new ⟨256⟩ .Client)) [some []] [(1, .Finish)] [Frame.ping 1] =
      (.eos, terminate (Connection.new ⟨256⟩ .Client), []) ∧
    poll (Connection.new ⟨256⟩ .Client) [] [] [Frame.go_away 5] =
      (.eos, terminate (Connection.new ⟨256⟩ .Client), []) := by
  have h1 := terminate_spec (terminate (Connection.new ⟨256⟩ .Client)) [some []]
    [(1, .Finish)] [Frame.ping 1] (Frame.go_away 5) []
  have h2 := terminate_spec (Connection.new ⟨256⟩ .Client) [] [] [] (Frame.go_away 5) []
  exact ⟨h1.2.1 rfl, h2.2.2 rfl rfl rfl⟩

/-- Claim C2 (code bug evidence): the code answers a ping only when its
stream id is a key of the stream table; a session ping (id 0, ACK clear,
nonce 42) on a fresh connection is silently dropped: no reply frame is
emitted, where the spec requires an ACK ping carrying nonce 42. -/
theorem session_ping_dropped :
    (Frame.ping 42).id = 0 ∧
    (Frame.ping 42).flags.ack = false ∧
    on_ping (Connection.new ⟨256⟩ .Server) (Frame.ping 42) = none ∧
    poll (Connection.new ⟨256⟩ .Server) [] [] [Frame.ping 42] =
      (.notReady, Connection.new ⟨256⟩ .Server, []) := by
  decide

/-- Claim C6: an accepted inbound Data frame with both SYN and FIN set and a
non-empty body creates a handle with pending ACK whose inbox is exactly
Finish followed by Data(body), and the same poll surfaces the new stream to
the consumer. -/
theorem syn_fin_inbox (st : Conn) (f : RawFrame)
    (hdead : st.is_dead = false) (hpend : st.pending = none)
    (hty : f.ty = .Data) (hsyn : f.flags.syn = true) (hfin : f.flags.fin = true)
    (hrst : f.flags.rst = false) (hbody : f.body ≠ [])
    (hval : is_valid_remote_id st.mode f.id .Data = true)
    (hlen : f.body.length ≤ st.config.receive_window)
    (hfresh : tbl_contains st.streams f.id = false) :
    on_data st f = (.ok (some f.id), { st with streams := tbl_insert st.streams f.id ⟨st.config.receive_window, true, [.Finish, .Data f.body], true⟩ }) ∧
    poll st [] [] [f] = (.ready f.id, { st with streams := tbl_insert st.streams f.id ⟨st.config.receive_window, true, [.Finish, .Data f.body], true⟩ }, []) := by
  have hne : f.body.isEmpty = false := by
    cases hb : f.body with
    | nil => exact absurd hb hbody
    | cons a l => rfl
  have hnotgt : ¬ (f.body.length > st.config.receive_window) := by omega
  have hbig2 : too_big (.Data f.body)
      (⟨st.config.receive_window, true, [.Finish], true⟩ : StreamHandle).recv_win = false := by
    simp only [too_big, decide_eq_false_iff_not]
    omega
  have h1 : deliver (new_stream st f.id true st.config.receive_window) f.id .Finish =
      (.Despatched, { st with streams := tbl_insert st.streams f.id ⟨st.config.receive_window, true, [.Finish], true⟩ }) := by
    have h := deliver_insert st f.id ⟨st.config.receive_window, true, [], true⟩ .Finish rfl rfl
    simpa [new_stream] using h
  have h2 : deliver { st with streams := tbl_insert st.streams f.id ⟨st.config.receive_window, true, [.Finish], true⟩ } f.id (.Data f.body) =
      (.Despatched, { st with streams := tbl_insert st.streams f.id ⟨st.config.receive_window, true, [.Finish, .Data f.body], true⟩ }) := by
    have h := deliver_insert st f.id ⟨st.config.receive_window, true, [.Finish], true⟩
      (.Data f.body) rfl hbig2
    simpa using h
  have hod : on_data st f = (.ok (some f.id), { st with streams := tbl_insert st.streams f.id ⟨st.config.receive_window, true, [.Finish, .Data f.body], true⟩ }) := by
    simp [on_data, hrst, hsyn, hfin, hne, hval, hfresh, hnotgt, h1, h2]
  refine ⟨hod, ?_⟩
  simp [poll, hdead, hpend, processCmds, processItems, processInbound, hty, hod]

/-- Witness for syn_fin_inbox: window 4, SYN+FIN Data frame id 1 with body
of one byte on a fresh server connection. -/
theorem syn_fin_inbox_witness :
    on_data (Connection.new ⟨4⟩ .Server) (set_fin (set_syn (Frame.data 1 [7]))) =
      (.ok (some 1), { Connection.new ⟨4⟩ .Server with streams := tbl_insert (Connection.new ⟨4⟩ .Server).streams 1 ⟨4, true, [.Finish, .Data [7]], true⟩ }) ∧
    poll (Connection.new ⟨4⟩ .Server) [] [] [set_fin (set_syn (Frame.data 1 [7]))] =
      (.ready 1, { Connection.new ⟨4⟩ .Server with streams := tbl_insert (Connection.new ⟨4⟩ .Server).streams 1 ⟨4, true, [.Finish, .Data [7]], true⟩ }, []) := by
  have h := syn_fin_inbox (Connection.new ⟨4⟩ .Server) (set_fin (set_syn (Frame.data 1 [7])))
    rfl rfl rfl rfl rfl rfl (by decide) rfl (by decide) rfl
  exact h

/-- No pending ACK on the stream: whatever handle the table holds for the
id has its ack flag cleared. -/
def no_pending_ack (st : Conn) (id : Nat) : Prop :=
  ∀ hd, tbl_get st.streams id = some hd → hd.ack = false

/-- One translation step from a no-pending-ACK state emits no ACK flag and
preserves the property. -/
theorem on_stream_item_no_ack_step (st : Conn) (id : Nat) (it : Item)
    (h : no_pending_ack st id) :
    (on_stream_item st id it).1.flags.ack = false ∧
    no_pending_ack (on_stream_item st id it).2 id := by
  cases it with
  | Data body =>
    cases hg : tbl_get st.streams id with
    | none =>
      refine ⟨?_, ?_⟩
      · simp [on_stream_item, hg, Frame.data, no_flags]
      · simpa [on_stream_item, hg] using h
    | some hd =>
      have ha : hd.ack = false := h hd hg
      refine ⟨?_, ?_⟩
      · simp [on_stream_item, hg, ha, Frame.data, no_flags]
      · simpa [on_stream_item, hg, ha] using h
  | WindowUpdate n =>
    cases hg : tbl_get st.streams id with
    | none =>
      refine ⟨?_, ?_⟩
      · simp [on_stream_item, hg, Frame.window_update, no_flags]
      · simpa [on_stream_item, hg] using h
    | some hd =>
      have ha : hd.ack = false := h hd hg
      refine ⟨?_, ?_⟩
      · simp [on_stream_item, hg, ha, Frame.window_update, no_flags]
      · simpa [on_stream_item, hg, ha] using h
  | Reset =>
    refine ⟨?_, ?_⟩
    · simp [on_stream_item, set_rst, Frame.data, no_flags]
    · intro hd hgd
      simp only [on_stream_item] at hgd
      rw [tbl_get_remove] at hgd
      cases hgd
  | Finish =>
    refine ⟨?_, ?_⟩
    · simp [on_stream_item, set_fin, Frame.data, no_flags]
    · simpa [on_stream_item] using h

/-- After translating a Data, WindowUpdate or Reset item, the stream has no
pending ACK left, whatever the starting state. -/
theorem on_stream_item_clears_ack (st : Conn) (id : Nat) (it : Item)
    (hit : it ≠ .Finish) :
    no_pending_ack (on_stream_item st id it).2 id := by
  cases it with
  | Data body =>
    cases hg : tbl_get st.streams id with
    | none =>
      intro hd hgd
      simp only [on_stream_item, hg] at hgd
      simp [hg] at hgd
    | some hd =>
      cases ha : hd.ack with
      | false =>
        intro hd' hgd'
        have hstreams : (on_stream_item st id (.Data body)).2.streams = st.streams := by
          simp [on_stream_item, hg, ha]
        rw [hstreams, hg] at hgd'
        injection hgd' with e
        rw [← e]
        exact ha
      | true =>
        intro hd' hgd'
        have hstreams : (on_stream_item st id (.Data body)).2.streams =
            tbl_insert st.streams id ({ hd with ack := false }) := by
          simp [on_stream_item, hg, ha]
        rw [hstreams, tbl_get_insert] at hgd'
        injection hgd' with e
        rw [← e]
  | WindowUpdate n =>
    cases hg : tbl_get st.streams id with
    | none =>
      intro hd hgd
      simp only [on_stream_item, hg] at hgd
      simp [hg] at hgd
    | some hd =>
      cases ha : hd.ack with
      | false =>
        intro hd' hgd'
        have hstreams : (on_stream_item st id (.WindowUpdate n)).2.streams = st.streams := by
          simp [on_stream_item, hg, ha]
        rw [hstreams, hg] at hgd'
        injection hgd' with e
        rw [← e]
        exact ha
      | true =>
        intro hd' hgd'
        have hstreams : (on_stream_item st id (.WindowUpdate n)).2.streams =
            tbl_insert st.streams id ({ hd with ack := false }) := by
          simp [on_stream_item, hg, ha]
        rw [hstreams, tbl_get_insert] at hgd'
        injection hgd' with e
        rw [← e]
  | Reset =>
    intro hd hgd
    simp only [on_stream_item] at hgd
    rw [tbl_get_remove] at hgd
    cases hgd
  | Finish => exact absurd rfl hit

/-- From a no-pending-ACK state, no translated frame ever carries ACK. -/
theorem run_items_no_ack (items : List Item) :
    ∀ st id, no_pending_ack st id →
      ∀ f ∈ (run_items st id items).1, f.flags.ack = false := by
  induction items with
  | nil =>
    intro st id h f hf
    simp [run_items] at hf
  | cons it rest ih =>
    intro st id h f hf
    have step := on_stream_item_no_ack_step st id it h
    simp only [run_items, List.mem_cons] at hf
    rcases hf with hf | hf
    · subst hf
      exact step.1
    · exact ih _ id step.2 f hf

/-- Any ACK-carrying frame in the translated sequence sits at the position
of the first Data or WindowUpdate item, preceded only by Finish items. -/
theorem run_items_ack_pos (items : List Item) :
    ∀ st id k f, (run_items st id items).1.get? k = some f → f.flags.ack = true →
      (∀ j, j < k → items.get? j = some .Finish) ∧
      (∃ it, items.get? k = some it ∧
        ((∃ b, it = .Data b) ∨ (∃ n, it = .WindowUpdate n))) := by
  induction items with
  | nil =>
    intro st id k f hf hack
    simp [run_items] at hf
  | cons it rest ih =>
    intro st id k f hf hack
    cases k with
    | zero =>
      have hf0 : (on_stream_item st id it).1 = f := by
        simpa [run_items] using hf
      cases it with
      | Data body =>
        exact ⟨fun j hj => absurd hj (Nat.not_lt_zero j), ⟨.Data body, rfl, Or.inl ⟨body, rfl⟩⟩⟩
      | WindowUpdate n =>
        exact ⟨fun j hj => absurd hj (Nat.not_lt_zero j), ⟨.WindowUpdate n, rfl, Or.inr ⟨n, rfl⟩⟩⟩
      | Reset =>
        rw [← hf0] at hack
        simp [on_stream_item, set_rst, Frame.data, no_flags] at hack
      | Finish =>
        rw [← hf0] at hack
        simp [on_stream_item, set_fin, Frame.data, no_flags] at hack
    | succ j =>
      have hf' : (run_items (on_stream_item st id it).2 id rest).1.get? j = some f := by
        simpa [run_items] using hf
      by_cases hfin : it = .Finish
      · subst hfin
        have hst : (on_stream_item st id .Finish).2 = st := rfl
        rw [hst] at hf'
        have h' := ih st id j f hf' hack
        refine ⟨?_, ?_⟩
        · intro j' hj'
          cases j' with
          | zero => rfl
          | succ i => exact h'.1 i (Nat.lt_of_succ_lt_succ hj')
        · obtain ⟨it', hi1, hi2⟩ := h'.2
          exact ⟨it', by simpa using hi1, hi2⟩
      · exfalso
        have hclear := on_stream_item_clears_ack st id it hfin
        have hnone := run_items_no_ack rest (on_stream_item st id it).2 id hclear f
          (List.get?_mem hf')
        rw [hnone] at hack
        cases hack

/-- Claim C4 counterexample: on a remote-opened stream (pending ACK after
the accepted SYN) whose first outbound item is Finish, the first outbound
frame does NOT carry ACK; the ACK appears on the second frame, refuting
"it is the first outbound frame emitted on that stream". -/
theorem ack_not_on_first_frame :
    ((run_items ((on_data (Connection.new ⟨256⟩ .Server) (set_syn (Frame.data 1 []))).2) 1
        [.Finish, .Data [7]]).1.map (fun fr => fr.flags.ack)) = [false, true] := by
  decide

/-- Claim C4 (amended): at most one outbound frame on a stream carries ACK;
on a locally-opened stream (no pending ACK) none does; an ACK-carrying
frame is the one translated from the first Data or WindowUpdate item of the
stream, preceded only by Finish items; translating Finish leaves the state
unchanged and translating Reset only removes the handle, so neither
consumes the pending-ACK flag. -/
theorem ack_spec (st : Conn) (id : Nat) (items : List Item) :
    (∀ k1 k2 f1 f2, (run_items st id items).1.get? k1 = some f1 →
      (run_items st id items).1.get? k2 = some f2 →
      f1.flags.ack = true → f2.flags.ack = true → k1 = k2) ∧
    (no_pending_ack st id → ∀ f ∈ (run_items st id items).1, f.flags.ack = false) ∧
    (∀ k f, (run_items st id items).1.get? k = some f → f.flags.ack = true →
      (∀ j, j < k → items.get? j = some .Finish) ∧
      (∃ it, items.get? k = some it ∧
        ((∃ b, it = .Data b) ∨ (∃ n, it = .WindowUpdate n)))) ∧
    ((on_stream_item st id .Finish).2 = st) ∧
    ((on_stream_item st id .Reset).2 = { st with streams := tbl_remove st.streams id }) := by
  refine ⟨?_, run_items_no_ack items st id, run_items_ack_pos items st id, rfl, rfl⟩
  intro k1 k2 f1 f2 h1 h2 a1 a2
  rcases Nat.lt_trichotomy k1 k2 with hlt | heq | hgt
  · exfalso
    have p2 := run_items_ack_pos items st id k2 f2 h2 a2
    have hfin := p2.1 k1 hlt
    have p1 := run_items_ack_pos items st id k1 f1 h1 a1
    obtain ⟨it, hit, hdw⟩ := p1.2
    rw [hfin] at hit
    injection hit with e
    rcases hdw with ⟨b, hb⟩ | ⟨n, hn⟩
    · rw [← e] at hb
      simp at hb
    · rw [← e] at hn
      simp at hn
  · exact heq
  · exfalso
    have p1 := run_items_ack_pos items st id k1 f1 h1 a1
    have hfin := p1.1 k2 hgt
    have p2 := run_items_ack_pos items st id k2 f2 h2 a2
    obtain ⟨it, hit, hdw⟩ := p2.2
    rw [hfin] at hit
    injection hit with e
    rcases hdw with ⟨b, hb⟩ | ⟨n, hn⟩
    · rw [← e] at hb
      simp at hb
    · rw [← e] at hn
      simp at hn

/-- Witness for ack_spec: the ack-free run of a locally-opened stream and
the state-preservation of a Finish translation, at a concrete state. -/
theorem ack_spec_witness :
    (∀ f ∈ (run_items (Connection.new ⟨8⟩ .Client) 9
        [.Data [1], .Finish, .WindowUpdate 3]).1, f.flags.ack = false) ∧
    (on_stream_item (Connection.new ⟨8⟩ .Client) 9 .Finish).2 = Connection.new ⟨8⟩ .Client := by
  have h := ack_spec (Connection.new ⟨8⟩ .Client) 9 [.Data [1], .Finish, .WindowUpdate 3]
  refine ⟨h.2.1 ?_, h.2.2.2.1⟩
  intro hd hgd
  simp [Connection.new, tbl_get] at hgd

/-- From a state with an empty pending slot, the fresh-frame send loop never
trips the pending assert (modelled as sendAll returning none). -/
theorem sendAll_assert_ok (frames : List RawFrame) :
    ∀ st oracle, st.pending = none → (sendAll st frames oracle).isSome = true := by
  induction frames with
  | nil =>
    intro st oracle h
    simp [sendAll]
  | cons f rest ih =>
    intro st oracle h
    rw [sendAll]
    cases hs : oracle.headD .ready with
    | ready => simpa [send] using ih st oracle.tail h
    | notReady => simp [send, h]
    | ioError => simp [send]

/-- The drive never trips the pending assert, from any starting state. -/
theorem pollSends_isSome (st : Conn) (frames : List RawFrame)
    (oracle : List SinkStatus) : (pollSends st frames oracle).isSome = true := by
  rw [pollSends]
  cases hdead : st.is_dead with
  | true => simp
  | false =>
    simp only [Bool.false_eq_true, if_false]
    cases hp : st.pending with
    | none => exact sendAll_assert_ok frames st oracle hp
    | some g =>
      cases hs : oracle.headD .ready with
      | ready => simpa [send] using sendAll_assert_ok frames _ oracle.tail rfl
      | notReady => simp [send]
      | ioError => simp [send]

/-- Claim C8: the pending-slot discipline of a drive: the pending frame is
taken out of its slot before any fresh send is attempted, and a frame is
parked only while the slot is empty, so the assert inside send never fires
(pollSends never returns none) and the slot never holds more than one
frame. -/
theorem pending_singleton (st : Conn) (frames : List RawFrame)
    (oracle : List SinkStatus) (f : RawFrame) :
    ((pollSends st frames oracle).isSome = true) ∧
    (st.is_dead = false → st.pending = some f →
      pollSends st [] [.ready] = some { st with pending := none }) := by
  constructor
  · exact pollSends_isSome st frames oracle
  · intro hdead hpend
    simp [pollSends, hdead, hpend, send, sendAll]

/-- Witness for pending_singleton: a parked ping frame is flushed and the
slot cleared by the next drive with a ready sink. -/
theorem pending_singleton_witness :
    pollSends { Connection.new ⟨256⟩ .Client with pending := some (Frame.ping 7) } []
      [.ready] = some (Connection.new ⟨256⟩ .Client) := by
  have h := pending_singleton
    { Connection.new ⟨256⟩ .Client with pending := some (Frame.ping 7) } [] [.ready]
    (Frame.ping 7)
  exact h.2 rfl rfl

end Yamux
